import Mathlib

/-!
Shallow embedding of `src/worklenz-backend/src/controllers/tasks-controller-v2.ts`
(class `TasksControllerV2`): the filter-composition, grouping, progress-aggregation
and dependency-gate logic, with theorems checking the natural-language
specification against it.
-/

namespace Worklenz

/-- JavaScript truthiness of an optional string value (`undefined` and the empty
string are falsy, every other string is truthy). -/
def jsTruthy : Option String → Bool
  | none => false
  | some s => !(s == "")

/-- Whether `n` is a leading piece of `l` (character lists). -/
def startsWithL : List Char → List Char → Bool
  | [], _ => true
  | _ :: _, [] => false
  | a :: as, b :: bs => a == b && startsWithL as bs

/-- Whether `n` occurs contiguously inside `l` (character lists). -/
def hasSubL (n : List Char) : List Char → Bool
  | [] => startsWithL n []
  | c :: cs => startsWithL n (c :: cs) || hasSubL n cs

/-- Whether the string `needle` occurs verbatim inside `hay`. -/
def occursIn (needle hay : String) : Bool :=
  hasSubL needle.toList hay.toList

/-- Modelled from the spec: the fixed sentinel key `UNMAPPED` is imported from
`shared/constants`, a file not among the provided sources; the spec only says the
unmapped group "uses a fixed sentinel key". Its concrete text is irrelevant to the
theorems below beyond being a fixed string. -/
def UNMAPPED : String := "Unmapped"

/-- Modelled from the spec: the `GroupBy` enum is imported from
`tasks-controller-base`, not among the provided sources. The spec's grouping
dimensions are STATUS, PRIORITY, LABEL and PHASE; `convertToSubtask` in the
provided source compares the group type against the literals "status",
"priority" and "phase", fixing the enum's values. -/
def GroupBy.STATUS : String := "status"

/-- Modelled from the spec: see `GroupBy.STATUS`. -/
def GroupBy.PRIORITY : String := "priority"

/-- Modelled from the spec: see `GroupBy.STATUS`. -/
def GroupBy.LABELS : String := "labels"

/-- Modelled from the spec: see `GroupBy.STATUS`. -/
def GroupBy.PHASE : String := "phase"

/-! ## Filter Predicate Composer and Task Query Planner

Embedding of `getQuery` (lines 107-262) and its helper closures (lines 47-90),
plus `getTasksByName` (lines 520-531). The raw HTTP query options are modelled
as optional strings, matching `ParsedQs` fields read with `as string`. -/

/-- The raw options `getQuery` reads from the parsed query string. Each field is
`none` when absent from the request. -/
structure QueryOptions where
  search : Option String := none
  parent_task : Option String := none
  statuses : Option String := none
  labels : Option String := none
  members : Option String := none
  projects : Option String := none
  priorities : Option String := none
  filterBy : Option String := none
  isSubtasksInclude : Option String := none
  archived : Option String := none
  customColumns : Option String := none
  sort : Option String := none
deriving DecidableEq

/-- JavaScript `String.prototype.split(sep)` for a one-character separator, on
character lists: `"".split(" ")` is `[""]`, and every separator occurrence cuts. -/
def splitOnChar (sep : Char) : List Char → List (List Char)
  | [] => [[]]
  | c :: cs =>
    match splitOnChar sep cs with
    | [] => [[c]]
    | h :: t => if c == sep then [] :: h :: t else (c :: h) :: t

/-- JavaScript `text.split(" ")` as a `String` operation. -/
def splitOnSpace (text : String) : List String :=
  (splitOnChar ' ' text.toList).map List.asString

/-- `flatString` (lines 47-49): splits the raw value on spaces and wraps each
piece in single quotes, joined with commas — the pieces are interpolated into the
query text, not bound. -/
def flatString (text : Option String) : String :=
  String.intercalate "," ((splitOnSpace (text.getD "")).map (fun s => "'" ++ s ++ "'"))

/-- `getFilterByStatusWhereClosure` (lines 51-53). -/
def getFilterByStatusWhereClosure (text : Option String) : String :=
  if jsTruthy text then "status_id IN (" ++ flatString text ++ ")" else ""

/-- `getFilterByPriorityWhereClosure` (lines 55-57). -/
def getFilterByPriorityWhereClosure (text : Option String) : String :=
  if jsTruthy text then "priority_id IN (" ++ flatString text ++ ")" else ""

/-- `getFilterByLabelsWhereClosure` (lines 59-63). -/
def getFilterByLabelsWhereClosure (text : Option String) : String :=
  if jsTruthy text then
    "id IN (SELECT task_id FROM task_labels WHERE label_id IN (" ++ flatString text ++ "))"
  else ""

/-- `getFilterByMembersWhereClosure` (lines 65-69). -/
def getFilterByMembersWhereClosure (text : Option String) : String :=
  if jsTruthy text then
    "id IN (SELECT task_id FROM tasks_assignees WHERE team_member_id IN (" ++ flatString text ++ "))"
  else ""

/-- `getFilterByProjectsWhereClosure` (lines 71-73). -/
def getFilterByProjectsWhereClosure (text : Option String) : String :=
  if jsTruthy text then "project_id IN (" ++ flatString text ++ ")" else ""

/-- `getFilterByAssignee` (lines 75-79): strict comparison with "member". -/
def getFilterByAssignee (filterBy : Option String) : String :=
  if filterBy == some "member" then
    "id IN (SELECT task_id FROM tasks_assignees WHERE team_member_id = $1)"
  else "project_id = $1"

/-- `getStatusesQuery` (lines 81-90). -/
def getStatusesQuery (filterBy : Option String) : String :=
  if filterBy == some "member" then
    ", (SELECT COALESCE(JSON_AGG(rec), '[]'::JSON)
      FROM (SELECT task_statuses.id, task_statuses.name, stsc.color_code
          FROM task_statuses
              INNER JOIN sys_task_status_categories stsc ON task_statuses.category_id = stsc.id
          WHERE project_id = t.project_id
          ORDER BY task_statuses.name) rec) AS statuses"
  else ""

/-- The custom-columns sub-select of `getQuery` (lines 131-155). -/
def customColumnsQueryOf (customColumns : Option String) : String :=
  if jsTruthy customColumns then
    ", (SELECT COALESCE(
            jsonb_object_agg(
              custom_cols.key,
              custom_cols.value
            ),
            '\x7b\x7d'::JSONB
          )
          FROM (
            SELECT
              cc.key,
              CASE
                WHEN ccv.text_value IS NOT NULL THEN to_jsonb(ccv.text_value)
                WHEN ccv.number_value IS NOT NULL THEN to_jsonb(ccv.number_value)
                WHEN ccv.boolean_value IS NOT NULL THEN to_jsonb(ccv.boolean_value)
                WHEN ccv.date_value IS NOT NULL THEN to_jsonb(ccv.date_value)
                WHEN ccv.json_value IS NOT NULL THEN ccv.json_value
                ELSE NULL::JSONB
              END AS value
            FROM cc_column_values ccv
            JOIN cc_custom_columns cc ON ccv.column_id = cc.id
            WHERE ccv.task_id = t.id
          ) AS custom_cols
          WHERE custom_cols.value IS NOT NULL) AS custom_column_values"
  else ""

/-- Modelled from the spec: `toPaginationOptions` is defined in the base
controller (`tasks-controller-base`), which is not among the provided sources.
Per the spec (section 4.2) it turns the optional free-text search term into a
name filter joined to the WHERE clause and yields the sort field, defaulting to
the stable manual ordering field; per section 9 the original approach
interpolates the values into the query text. Returns (searchQuery, sortField). -/
def toPaginationOptions (options : QueryOptions) (searchField : String) : String × String :=
  (if jsTruthy options.search then
     " AND " ++ searchField ++ " ILIKE '%" ++ options.search.getD "" ++ "%'"
   else "",
   options.sort.getD "sort_order")

/-- The archived fragment of `getQuery` (line 157). -/
def archivedFilterOf (options : QueryOptions) : String :=
  if options.archived == some "true" then "archived IS TRUE" else "archived IS FALSE"

/-- The sub-task fragment of `getQuery` (lines 159-165). -/
def subTasksFilterOf (options : QueryOptions) : String :=
  if options.isSubtasksInclude == some "true" then ""
  else if jsTruthy options.parent_task then "parent_task_id = $2"
  else "parent_task_id IS NULL"

/-- The raw WHERE fragment list of `getQuery` (lines 167-176), before empty
fragments are dropped. -/
def getQueryFilterRaw (options : QueryOptions) : List String :=
  let isSubTasks := jsTruthy options.parent_task
  [subTasksFilterOf options,
   (if isSubTasks then "1 = 1" else archivedFilterOf options),
   (if isSubTasks then "$1 = $1" else getFilterByAssignee options.filterBy),
   getFilterByStatusWhereClosure options.statuses,
   getFilterByPriorityWhereClosure options.priorities,
   getFilterByLabelsWhereClosure options.labels,
   getFilterByMembersWhereClosure options.members,
   getFilterByProjectsWhereClosure options.projects]

/-- The WHERE fragment list of `getQuery` after `.filter(i => !!i)` drops the
absent fragments (line 176). -/
def getQueryFilterList (options : QueryOptions) : List String :=
  (getQueryFilterRaw options).filter (fun i => !(i == ""))

/-- The joined WHERE fragment string of `getQuery` (line 176). -/
def getQueryFilters (options : QueryOptions) : String :=
  String.intercalate " AND " (getQueryFilterList options)

/-- `getQuery` (lines 107-262): the full query text, with the caller's id, the
filter values and the search term interpolated into it as in the source. -/
def getQuery (userId : String) (options : QueryOptions) : String :=
  let searchField := if jsTruthy options.search then "t.name" else "sort_order"
  let pag := toPaginationOptions options searchField
  let searchQuery := pag.1
  let sortField := pag.2
  let sortFields0 := (sortField.replace "ascend" "ASC").replace "descend" "DESC"
  let sortFields := if sortFields0 == "" then "sort_order" else sortFields0
  let customColumnsQuery := customColumnsQueryOf options.customColumns
  let statusesQuery := getStatusesQuery options.filterBy
  let filters := getQueryFilters options
  "
      SELECT id,
             name,
             CONCAT((SELECT key FROM projects WHERE id = t.project_id), '-', task_no) AS task_key,
             (SELECT name FROM projects WHERE id = t.project_id) AS project_name,
             t.project_id AS project_id,
             t.parent_task_id,
             t.parent_task_id IS NOT NULL AS is_sub_task,
             (SELECT name FROM tasks WHERE id = t.parent_task_id) AS parent_task_name,
             (SELECT COUNT(*)
              FROM tasks
              WHERE parent_task_id = t.id)::INT AS sub_tasks_count,

             t.status_id AS status,
             t.archived,
             t.description,
             t.sort_order,

             (SELECT phase_id FROM task_phase WHERE task_id = t.id) AS phase_id,
             (SELECT name
              FROM project_phases
              WHERE id = (SELECT phase_id FROM task_phase WHERE task_id = t.id)) AS phase_name,
              (SELECT color_code
                FROM project_phases
                WHERE id = (SELECT phase_id FROM task_phase WHERE task_id = t.id)) AS phase_color_code,

             (EXISTS(SELECT 1 FROM task_subscribers WHERE task_id = t.id)) AS has_subscribers,
             (EXISTS(SELECT 1 FROM task_dependencies td WHERE td.task_id = t.id)) AS has_dependencies,
             (SELECT start_time
              FROM task_timers
              WHERE task_id = t.id
                AND user_id = '" ++ userId ++ "') AS timer_start_time,

             (SELECT color_code
              FROM sys_task_status_categories
              WHERE id = (SELECT category_id FROM task_statuses WHERE id = t.status_id)) AS status_color,

             (SELECT color_code_dark
              FROM sys_task_status_categories
              WHERE id = (SELECT category_id FROM task_statuses WHERE id = t.status_id)) AS status_color_dark,

             (SELECT COALESCE(ROW_TO_JSON(r), '\x7b\x7d'::JSON)
              FROM (SELECT is_done, is_doing, is_todo
                    FROM sys_task_status_categories
                    WHERE id = (SELECT category_id FROM task_statuses WHERE id = t.status_id)) r) AS status_category,

             (SELECT COUNT(*) FROM task_comments WHERE task_id = t.id) AS comments_count,
             (SELECT COUNT(*) FROM task_attachments WHERE task_id = t.id) AS attachments_count,
             (CASE
                WHEN EXISTS(SELECT 1
                            FROM tasks_with_status_view
                            WHERE tasks_with_status_view.task_id = t.id
                              AND is_done IS TRUE) THEN 1
                ELSE 0 END) AS parent_task_completed,
             (SELECT get_task_assignees(t.id)) AS assignees,
             (SELECT COUNT(*)
              FROM tasks_with_status_view tt
              WHERE tt.parent_task_id = t.id
                AND tt.is_done IS TRUE)::INT
               AS completed_sub_tasks,

             (SELECT COALESCE(JSON_AGG(r), '[]'::JSON)
              FROM (SELECT task_labels.label_id AS id,
                           (SELECT name FROM team_labels WHERE id = task_labels.label_id),
                           (SELECT color_code FROM team_labels WHERE id = task_labels.label_id)
                    FROM task_labels
                    WHERE task_id = t.id) r) AS labels,
             (SELECT is_completed(status_id, project_id)) AS is_complete,
             (SELECT name FROM users WHERE id = t.reporter_id) AS reporter,
             (SELECT id FROM task_priorities WHERE id = t.priority_id) AS priority,
             (SELECT value FROM task_priorities WHERE id = t.priority_id) AS priority_value,
             total_minutes,
             (SELECT SUM(time_spent) FROM task_work_log WHERE task_id = t.id) AS total_minutes_spent,
             created_at,
             updated_at,
             completed_at,
             start_date,
             billable,
             schedule_id,
             END_DATE " ++ customColumnsQuery ++ " " ++ statusesQuery ++ "
      FROM tasks t
      WHERE " ++ filters ++ " " ++ searchQuery ++ "
      ORDER BY " ++ sortFields ++ "
    "

/-- `getTasksByName` (lines 520-531): the query text, with the search string
interpolated verbatim into the ILIKE pattern while project and task ids are
bound as `$1`/`$2`. -/
def getTasksByNameQuery (searchString : String) : String :=
  "SELECT id AS value ,
       name AS label,
       CONCAT((SELECT key FROM projects WHERE id = t.project_id), '-', task_no) AS task_key
      FROM tasks t
      WHERE t.name ILIKE '%" ++ searchString ++ "%'
        AND t.project_id = $1 AND t.id != $2
      LIMIT 15;"

/-- Spec-side definition (section 4.1): `options` with every multi-value filter
erased, used to state that absent filters impose no restriction. -/
def clearMultiFilters (options : QueryOptions) : QueryOptions :=
  { options with statuses := none, priorities := none, labels := none,
                 members := none, projects := none }

/-- Spec-side definition (section 4.1): the WHERE fragments of a request with
every multi-value filter absent — only the sub-task, archived and assignee-scope
fragments remain. -/
def getQueryBaseFilterList (options : QueryOptions) : List String :=
  let isSubTasks := jsTruthy options.parent_task
  ([subTasksFilterOf options,
    (if isSubTasks then "1 = 1" else archivedFilterOf options),
    (if isSubTasks then "$1 = $1" else getFilterByAssignee options.filterBy)]).filter
    (fun i => !(i == ""))

/-! ## Grouping Engine

Embedding of `updateMapByGroup` (lines 356-381) and the `TaskListGroup` shell
class (lines 12-36). The JS object used as the map is modelled as an association
list from group key to group; pushing onto `map[key]?.tasks` is a no-op when the
key is absent, exactly as optional chaining makes it in the source. -/

/-- The `is_todo`/`is_doing`/`is_done` flags of a task's resolved status
category (the `status_category` row of `getQuery`'s select list). -/
structure StatusCategoryFlags where
  is_todo : Bool
  is_doing : Bool
  is_done : Bool
deriving DecidableEq

/-- The fields of a fetched task row that the grouping and progress code reads:
`status`, `priority`, `phase_id`, `status_category` and the display `index`
assigned during the walk. -/
structure Task where
  status : String
  priority : String
  phase_id : Option String
  status_category : Option StatusCategoryFlags
  index : Nat
deriving DecidableEq

/-- `TaskListGroup` (lines 12-36): one group of the grouped response. -/
structure TaskListGroup where
  name : String
  category_id : Option String
  color_code : String
  color_code_dark : String
  start_date : Option String
  end_date : Option String
  todo_progress : Nat
  doing_progress : Nat
  done_progress : Nat
  tasks : List Task
deriving DecidableEq

/-- The map from group key to group shell, a JS object in the source. -/
abbrev GroupMap := List (String × TaskListGroup)

/-- The keys of the map, in insertion order. -/
def keysOf (m : GroupMap) : List String := m.map (·.1)

/-- `map[key]` of the source: the group stored at `key`, if any. -/
def lookupG (m : GroupMap) (key : String) : Option TaskListGroup :=
  (m.find? (fun kg => kg.1 == key)).map (·.2)

/-- `map[key]?.tasks.push(task)` of the source: append `t` to the tasks of the
group at `key`; a no-op when the key is absent (optional chaining). -/
def pushTask (m : GroupMap) (key : String) (t : Task) : GroupMap :=
  m.map (fun kg => if kg.1 == key then (kg.1, { kg.2 with tasks := kg.2.tasks ++ [t] }) else kg)

/-- `map[key] = g` of the source: overwrite the entry at `key`, or append a new
entry when the key is absent. -/
def setKey (m : GroupMap) (key : String) (g : TaskListGroup) : GroupMap :=
  if m.any (fun kg => kg.1 == key) then
    m.map (fun kg => if kg.1 == key then (kg.1, g) else kg)
  else m ++ [(key, g)]

/-- Modelled from the spec: `updateTaskViewModel` is defined in the base
controller (`tasks-controller-base`), not among the provided sources. Per the
spec (section 3) decoration only adds derived view fields and never changes the
grouping keys (status, priority, phase) or membership-relevant state, so on the
embedded record it is the identity. -/
def updateTaskViewModel (t : Task) : Task := t

/-- The group object the source builds for the unmapped bucket (lines 374-379);
the fields the JS literal omits are the structure's defaults. -/
def unmappedGroup (unmapped : List Task) : TaskListGroup :=
  { name := UNMAPPED, category_id := none, color_code := "#fbc84c69",
    color_code_dark := "", start_date := none, end_date := none,
    todo_progress := 0, doing_progress := 0, done_progress := 0,
    tasks := unmapped }

/-- The loop of `updateMapByGroup` (lines 357-371): walk the tasks, assign the
incrementing display index, decorate, and push each task into the group its key
selects; tasks reaching the final `else` accumulate in `unmapped`. -/
def updateMapByGroupAux (groupBy : String) :
    List Task → Nat → GroupMap → List Task → GroupMap × List Task
  | [], _, m, unmapped => (m, unmapped)
  | t :: ts, index, m, unmapped =>
    let t := updateTaskViewModel { t with index := index }
    if groupBy == GroupBy.STATUS then
      updateMapByGroupAux groupBy ts (index + 1) (pushTask m t.status t) unmapped
    else if groupBy == GroupBy.PRIORITY then
      updateMapByGroupAux groupBy ts (index + 1) (pushTask m t.priority t) unmapped
    else if groupBy == GroupBy.PHASE && jsTruthy t.phase_id then
      updateMapByGroupAux groupBy ts (index + 1) (pushTask m (t.phase_id.getD "") t) unmapped
    else
      updateMapByGroupAux groupBy ts (index + 1) m (unmapped ++ [t])

/-- `updateMapByGroup` (lines 356-381): walk the tasks into the supplied group
shells, then materialize the unmapped group only when its list is non-empty. -/
def updateMapByGroup (tasks : List Task) (groupBy : String) (map : GroupMap) : GroupMap :=
  let r := updateMapByGroupAux groupBy tasks 0 map []
  if r.2.isEmpty then r.1 else setKey r.1 UNMAPPED (unmappedGroup r.2)

/-- Spec-side definition (section 4.3): the decorated task sequence — each task
carries its position in the overall flat result. -/
def decorate : List Task → Nat → List Task
  | [], _ => []
  | t :: ts, i => { t with index := i } :: decorate ts (i + 1)

/-- The number of tasks across all groups of the map that satisfy `p`. -/
def mapCountP (p : Task → Bool) (m : GroupMap) : Nat :=
  (m.map (fun kg => kg.2.tasks.countP p)).sum

/-- The total task count over all groups of the map. -/
def totalCount (m : GroupMap) : Nat :=
  (m.map (fun kg => kg.2.tasks.length)).sum

/-- The branch of the loop body the task takes resolves it into a supplied
shell: its key under the grouping dimension, when the branch pushes at all, is a
key of the map. -/
def stepKeeps (groupBy : String) (keys : List String) (t : Task) : Prop :=
  if groupBy == GroupBy.STATUS then t.status ∈ keys
  else if groupBy == GroupBy.PRIORITY then t.priority ∈ keys
  else if groupBy == GroupBy.PHASE && jsTruthy t.phase_id then t.phase_id.getD "" ∈ keys
  else True

instance stepKeeps.decidable (groupBy : String) (keys : List String) (t : Task) :
    Decidable (stepKeeps groupBy keys t) := by
  unfold stepKeeps
  infer_instance

/-- Spec-side definition (section 4.3, glossary): the task's group key resolves
to a supplied group shell of the map. -/
def resolvesToShell (groupBy : String) (m : GroupMap) (t : Task) : Bool :=
  if groupBy == GroupBy.STATUS then (keysOf m).contains t.status
  else if groupBy == GroupBy.PRIORITY then (keysOf m).contains t.priority
  else if groupBy == GroupBy.PHASE then
    jsTruthy t.phase_id && (keysOf m).contains (t.phase_id.getD "")
  else false

/-- The final `else` of the loop body (line 369): the task is routed to the
unmapped list. -/
def elseBranchTaken (groupBy : String) (t : Task) : Bool :=
  !(groupBy == GroupBy.STATUS) && !(groupBy == GroupBy.PRIORITY) &&
    !(groupBy == GroupBy.PHASE && jsTruthy t.phase_id)

/-! ## Progress Aggregator

Embedding of `updateTaskProgresses` (lines 383-393). -/

/-- Modelled from the spec: `calculateTaskCompleteRatio` is defined in the base
controller (`tasks-controller-base`), not among the provided sources. Per the
spec (section 4.4) the ratio is the matching count over the group's total as a
whole percentage, rounded to the nearest percentage point, and defined as 0 for
an empty group so the division by zero never propagates. -/
def calculateTaskCompleteRatio (count total : Nat) : Nat :=
  if total = 0 then 0 else (200 * count + total) / (2 * total)

/-- `updateTaskProgresses` (lines 383-393): count the member tasks per resolved
status category (optional chaining yields no match for a missing category) and
write the three ratios back onto the group. -/
def updateTaskProgresses (group : TaskListGroup) : TaskListGroup :=
  let todoCount := (group.tasks.filter (fun t =>
    match t.status_category with | some c => c.is_todo | none => false)).length
  let doingCount := (group.tasks.filter (fun t =>
    match t.status_category with | some c => c.is_doing | none => false)).length
  let doneCount := (group.tasks.filter (fun t =>
    match t.status_category with | some c => c.is_done | none => false)).length
  let total := group.tasks.length
  { group with
    todo_progress := calculateTaskCompleteRatio todoCount total,
    doing_progress := calculateTaskCompleteRatio doingCount total,
    done_progress := calculateTaskCompleteRatio doneCount total }

/-! ## convertToTask

Embedding of the `UPDATE` issued by `convertToTask` (lines 421-435) over a
store modelled as a list of task rows; the `MAX` subquery reads the pre-update
rows, as a Postgres `UPDATE` does. -/

/-- A persisted task row as `convertToTask` touches it. -/
structure ProjTaskRow where
  id : String
  project_id : String
  parent_task_id : Option String
  sort_order : Int
deriving DecidableEq

/-- `SELECT MAX(sort_order) FROM tasks WHERE project_id = $2`: `none` when the
project has no rows (SQL NULL). -/
def maxSortOrder (store : List ProjTaskRow) (projectId : String) : Option Int :=
  ((store.filter (fun t => t.project_id == projectId)).map (·.sort_order)).max?

/-- The `UPDATE` of `convertToTask` (lines 423-428): null the parent and set the
sort order to `COALESCE(MAX(sort_order) + 1, 0)` over the destination project. -/
def convertToTask (store : List ProjTaskRow) (id projectId : String) : List ProjTaskRow :=
  let newSort : Int := match maxSortOrder store projectId with
    | some m => m + 1
    | none => 0
  store.map (fun t =>
    if t.id == id then { t with parent_task_id := none, sort_order := newSort } else t)

/-! ## convertToSubtask

Embedding of `convertToSubtask` (lines 446-490) as the ordered list of queries
it issues against the store, each with its positional parameters. -/

/-- The request body fields `convertToSubtask` reads. -/
structure ConvertBody where
  group_by : Option String
  id : Option String
  project_id : Option String
  parent_task_id : Option String
  to_group_id : Option String
deriving DecidableEq

/-- One query issued to the store with its positional parameters. -/
structure IssuedQuery where
  text : String
  params : List (Option String)
deriving DecidableEq

/-- The status-branch `UPDATE` of `convertToSubtask` (lines 453-459). -/
def statusUpdateQ : String :=
  "
        UPDATE tasks
        SET parent_task_id = $3,
            sort_order     = COALESCE((SELECT MAX(sort_order) + 1 FROM tasks WHERE project_id = $2), 0),
            status_id      = $4
        WHERE id = $1;
      "

/-- The priority-branch `UPDATE` of `convertToSubtask` (lines 461-467). -/
def priorityUpdateQ : String :=
  "
        UPDATE tasks
        SET parent_task_id = $3,
            sort_order     = COALESCE((SELECT MAX(sort_order) + 1 FROM tasks WHERE project_id = $2), 0),
            priority_id    = $4
        WHERE id = $1;
      "

/-- The reparent `UPDATE` issued inside the phase branch (lines 469-474). -/
def phaseReparentQ : String :=
  "
        UPDATE tasks
        SET parent_task_id = $3,
            sort_order     = COALESCE((SELECT MAX(sort_order) + 1 FROM tasks WHERE project_id = $2), 0)
        WHERE id = $1;
      "

/-- The phase-change handler call of the phase branch (line 475). -/
def phaseHandlerQ : String := "SELECT handle_on_task_phase_change($1, $2);"

/-- The single-task refetch issued at the end (line 486). -/
def getSingleTaskQ : String := "SELECT get_single_task($1) AS task;"

/-- `convertToSubtask` (lines 446-490): pick the update text by group type (the
phase branch issues its reparent update immediately), replace an `UNMAPPED`
destination group id by null, then issue the picked query with its positional
parameters and refetch the task. -/
def convertToSubtask (body : ConvertBody) : List IssuedQuery :=
  let groupType := body.group_by
  let q :=
    if groupType == some "status" then statusUpdateQ
    else if groupType == some "priority" then priorityUpdateQ
    else if groupType == some "phase" then phaseHandlerQ
    else ""
  let preQueries :=
    if groupType == some "phase" then
      [IssuedQuery.mk phaseReparentQ [body.id, body.project_id, body.parent_task_id]]
    else []
  let body :=
    if body.to_group_id == some UNMAPPED then { body with to_group_id := none } else body
  let params :=
    if groupType == some "phase" then [body.id, body.to_group_id]
    else [body.id, body.project_id, body.parent_task_id, body.to_group_id]
  preQueries ++ [IssuedQuery.mk q params, IssuedQuery.mk getSingleTaskQ [body.id]]

/-! ## Dependency Gate

Embedding of `checkForCompletedDependencies` (lines 554-590): its `CASE` query
over a store modelled as lists of rows. SQL's three-valued edge is kept: the
`LEFT JOIN` row for a dangling dependency has a NULL status and project, so its
done-status subquery is empty and `NOT IN` over the empty set is true. -/

/-- A `task_statuses` row. -/
structure StatusRow where
  id : String
  project_id : String
  category_id : String
deriving DecidableEq

/-- A `sys_task_status_categories` row (only the flag the gate reads). -/
structure CategoryRow where
  id : String
  is_done : Bool
deriving DecidableEq

/-- A `tasks` row as the gate reads it. -/
structure GateTaskRow where
  id : String
  project_id : String
  status_id : String
deriving DecidableEq

/-- A `task_dependencies` row: `task_id` depends on `related_task_id`. -/
structure DependencyRow where
  task_id : String
  related_task_id : String
deriving DecidableEq

/-- The store tables the dependency gate consults. -/
structure GateDb where
  statuses : List StatusRow
  categories : List CategoryRow
  tasks : List GateTaskRow
  deps : List DependencyRow
deriving DecidableEq

/-- First `WHEN EXISTS` of the gate's `CASE` (lines 557-566): the target status
id names a status of the task's project whose category is not done. A missing
task row makes the scalar subquery NULL and the comparison with it not true. -/
def gateCond1 (db : GateDb) (taskId nextStatusId : String) : Bool :=
  db.statuses.any (fun ts =>
    ts.id == nextStatusId &&
      (db.tasks.find? (fun t => t.id == taskId)).map (·.project_id) == some ts.project_id &&
      db.categories.any (fun c => c.id == ts.category_id && !c.is_done))

/-- Second `WHEN EXISTS` of the gate's `CASE` (lines 568-582): some dependency
row of the task joins a related task whose status id is not among the done
statuses of its project. For a dangling dependency the `LEFT JOIN` row is all
NULL, its done-status subquery is empty, and `NOT IN` over the empty set is
true. -/
def gateCond2 (db : GateDb) (taskId : String) : Bool :=
  db.deps.any (fun td =>
    td.task_id == taskId &&
      match db.tasks.find? (fun t => t.id == td.related_task_id) with
      | none => true
      | some t =>
        !(db.statuses.any (fun ts =>
          ts.project_id == t.project_id &&
            db.categories.any (fun c => c.id == ts.category_id && c.is_done) &&
            ts.id == t.status_id)))

/-- `checkForCompletedDependencies` (lines 554-590): the boolean the `CASE`
query yields for `$1 = taskId`, `$2 = nextStatusId`. -/
def checkForCompletedDependencies (db : GateDb) (taskId nextStatusId : String) : Bool :=
  if gateCond1 db taskId nextStatusId then true
  else if gateCond2 db taskId then false
  else true

/-! ## Label assignment

Embedding of `assignLabelsToTask` (lines 605-615) as the deterministic ordered
trace of its observable actions under the JavaScript event loop:
`Array.prototype.forEach` ignores the promises an async callback returns, so
each callback runs synchronously up to its first `await` (issuing the write) and
suspends; `forEach` returns immediately, the handler sends the success response,
and only afterwards do the awaited write completions resume on the microtask
queue. -/

/-- An observable action of the label-assignment handler. -/
inductive LabelAction where
  | issueWrite (taskId label : String)
  | writeCompleted (taskId label : String)
  | respondSuccess
deriving DecidableEq

/-- `assignLabelsToTask` (lines 605-615): the action trace the source produces —
all writes are issued, the success response is sent, and the write completions
land after it. -/
def assignLabelsToTaskTrace (id : String) (labels : List String) : List LabelAction :=
  (labels.map (fun l => LabelAction.issueWrite id l)) ++
    [LabelAction.respondSuccess] ++
    (labels.map (fun l => LabelAction.writeCompleted id l))

/-- Spec-side definition (section 5, section 9): the trace of a sequential
awaited loop — each write completes before the next is issued and the success
response comes last. -/
def sequentialAwaitedTrace (id : String) (labels : List String) : List LabelAction :=
  (labels.flatMap (fun l => [LabelAction.issueWrite id l, LabelAction.writeCompleted id l])) ++
    [LabelAction.respondSuccess]

/-- Spec-side predicate: every label's write completion occurs before the
success response in the trace. -/
def completionsPrecedeResponse (labels : List String) (id : String)
    (tr : List LabelAction) : Bool :=
  labels.all (fun l =>
    (tr.takeWhile (fun a => !(a == LabelAction.respondSuccess))).contains
      (LabelAction.writeCompleted id l))

/-! ## Theorems -/

set_option maxRecDepth 20000

/-- C9: the claim is the spec's requirement and the code violates it —
`assignLabelsToTask` iterates the label writes with `Array.prototype.forEach`
over an async callback, which discards the promises: the trace it produces at
two labels is not the sequential awaited trace, and the success response is sent
before any write completion. -/
theorem assignLabelsToTask_fire_and_forget :
    assignLabelsToTaskTrace "t1" ["l1", "l2"] ≠ sequentialAwaitedTrace "t1" ["l1", "l2"] ∧
    completionsPrecedeResponse ["l1", "l2"] "t1"
      (assignLabelsToTaskTrace "t1" ["l1", "l2"]) = false := by
  constructor
  · decide
  · decide

/-- C4: the claim is the spec's security requirement and the code violates it —
the free-text search term is interpolated verbatim into `getTasksByName`'s query
text (so the text depends on the attacker-controlled value), and a status id
list is interpolated verbatim into `getQuery`'s WHERE clause, as is the caller's
user id into its timer sub-select. -/
theorem listing_queries_interpolate_user_input :
    occursIn "abc" (getTasksByNameQuery "abc") = true ∧
    getTasksByNameQuery "a" ≠ getTasksByNameQuery "b" ∧
    occursIn "deadbeef" (getQueryFilters { statuses := some "deadbeef" }) = true ∧
    getQuery "user-a" {} ≠ getQuery "user-b" {} := by
  refine ⟨by decide, by decide, by decide, ?_⟩
  intro h
  have hd := congrArg String.data h
  simp only [getQuery, String.data_append, List.append_assoc] at hd
  have hu := (List.append_inj (List.append_cancel_left hd) rfl).1
  have : ("user-a".data : List Char) ≠ "user-b".data := by decide
  exact this hu

/-- C10: whenever `convertToSubtask`'s requested destination group id is the
`UNMAPPED` sentinel, the issued update carries null in the destination slot —
the status or priority update's fourth parameter, or the phase-change handler's
second parameter — rather than the sentinel string. -/
theorem convertToSubtask_unmapped_becomes_null (body : ConvertBody)
    (h : body.to_group_id = some UNMAPPED) :
    (body.group_by = some "status" →
      IssuedQuery.mk statusUpdateQ [body.id, body.project_id, body.parent_task_id, none]
        ∈ convertToSubtask body) ∧
    (body.group_by = some "priority" →
      IssuedQuery.mk priorityUpdateQ [body.id, body.project_id, body.parent_task_id, none]
        ∈ convertToSubtask body) ∧
    (body.group_by = some "phase" →
      IssuedQuery.mk phaseHandlerQ [body.id, none] ∈ convertToSubtask body) := by
  refine ⟨?_, ?_, ?_⟩ <;> intro hg <;> simp [convertToSubtask, hg, h]

/-- Witness for C10 at a concrete body converting into the unmapped group under
status grouping. -/
theorem convertToSubtask_unmapped_becomes_null_witness :
    IssuedQuery.mk statusUpdateQ [some "t1", some "p1", some "parent1", none]
      ∈ convertToSubtask
          (ConvertBody.mk (some "status") (some "t1") (some "p1") (some "parent1")
            (some UNMAPPED)) :=
  (convertToSubtask_unmapped_becomes_null
    (ConvertBody.mk (some "status") (some "t1") (some "p1") (some "parent1")
      (some UNMAPPED)) rfl).1 rfl

/-- C7: `convertToTask` nulls the task's parent reference and sets its sort
order to one more than the maximum sort order among the destination project's
rows, or to 0 when that project has no rows. -/
theorem convertToTask_reparents_to_root (store : List ProjTaskRow) (id projectId : String)
    (t : ProjTaskRow) (ht : t ∈ convertToTask store id projectId) (hid : t.id = id) :
    t.parent_task_id = none ∧
    (∀ m, maxSortOrder store projectId = some m → t.sort_order = m + 1) ∧
    ((∀ r ∈ store, ¬ r.project_id = projectId) → t.sort_order = 0) := by
  unfold convertToTask at ht
  rw [List.mem_map] at ht
  obtain ⟨r, hr, hrt⟩ := ht
  by_cases hcase : r.id == id
  · rw [if_pos hcase] at hrt
    subst hrt
    refine ⟨rfl, ?_, ?_⟩
    · intro m hm
      simp only [hm]
    · intro hnone
      have hfilter : store.filter (fun t => t.project_id == projectId) = [] := by
        rw [List.filter_eq_nil_iff]
        intro a ha
        simpa using hnone a ha
      simp only [maxSortOrder, hfilter, List.map_nil, List.max?_nil]
  · rw [if_neg hcase] at hrt
    subst hrt
    exact absurd hid (by simpa using hcase)

/-- Witness for C7: a store with two rows in the destination project (max sort
order 5) and one sub-task converted into it. -/
theorem convertToTask_reparents_to_root_witness :
    ∃ t ∈ convertToTask
        [ProjTaskRow.mk "a" "q" none 3, ProjTaskRow.mk "b" "q" none 5,
         ProjTaskRow.mk "x" "q" (some "p") 1] "x" "q",
      t.id = "x" ∧ t.parent_task_id = none ∧ t.sort_order = 6 := by
  refine ⟨ProjTaskRow.mk "x" "q" none 6, by decide, rfl, ?_, ?_⟩
  · exact (convertToTask_reparents_to_root
      [ProjTaskRow.mk "a" "q" none 3, ProjTaskRow.mk "b" "q" none 5,
       ProjTaskRow.mk "x" "q" (some "p") 1] "x" "q"
      (ProjTaskRow.mk "x" "q" none 6) (by decide) rfl).1
  · exact (convertToTask_reparents_to_root
      [ProjTaskRow.mk "a" "q" none 3, ProjTaskRow.mk "b" "q" none 5,
       ProjTaskRow.mk "x" "q" (some "p") 1] "x" "q"
      (ProjTaskRow.mk "x" "q" none 6) (by decide) rfl).2.1 5 (by decide)

lemma clearMultiFilters_statuses (o : QueryOptions) : (clearMultiFilters o).statuses = none := rfl

lemma clearMultiFilters_priorities (o : QueryOptions) : (clearMultiFilters o).priorities = none := rfl

lemma clearMultiFilters_labels (o : QueryOptions) : (clearMultiFilters o).labels = none := rfl

lemma clearMultiFilters_members (o : QueryOptions) : (clearMultiFilters o).members = none := rfl

lemma clearMultiFilters_projects (o : QueryOptions) : (clearMultiFilters o).projects = none := rfl

lemma clearMultiFilters_parent_task (o : QueryOptions) :
    (clearMultiFilters o).parent_task = o.parent_task := rfl

lemma clearMultiFilters_filterBy (o : QueryOptions) :
    (clearMultiFilters o).filterBy = o.filterBy := rfl

lemma clearMultiFilters_isSubtasksInclude (o : QueryOptions) :
    (clearMultiFilters o).isSubtasksInclude = o.isSubtasksInclude := rfl

lemma clearMultiFilters_archived (o : QueryOptions) :
    (clearMultiFilters o).archived = o.archived := rfl

/-- C3: for every request in which a given multi-value filter is empty or
unset â independently of what the other filters hold â that filter contributes
no fragment at all: its closure is the empty string, the WHERE fragment list
and the whole query text `getQuery` builds equal those of the same request with
that filter removed, and the fragment list never contains an empty (rejects-all
or vacuous) conjunct; when all five are empty the list collapses to the base
fragments (sub-task scope, archived, assignee scope). -/
theorem getQuery_empty_filters_impose_nothing (userId : String) (opts : QueryOptions) :
    "" ∉ getQueryFilterList opts ∧
    (jsTruthy opts.statuses = false →
      getFilterByStatusWhereClosure opts.statuses = "" ∧
      getQueryFilterList opts = getQueryFilterList { opts with statuses := none } ∧
      getQuery userId opts = getQuery userId { opts with statuses := none }) ∧
    (jsTruthy opts.priorities = false →
      getFilterByPriorityWhereClosure opts.priorities = "" ∧
      getQueryFilterList opts = getQueryFilterList { opts with priorities := none } ∧
      getQuery userId opts = getQuery userId { opts with priorities := none }) ∧
    (jsTruthy opts.labels = false →
      getFilterByLabelsWhereClosure opts.labels = "" ∧
      getQueryFilterList opts = getQueryFilterList { opts with labels := none } ∧
      getQuery userId opts = getQuery userId { opts with labels := none }) ∧
    (jsTruthy opts.members = false →
      getFilterByMembersWhereClosure opts.members = "" ∧
      getQueryFilterList opts = getQueryFilterList { opts with members := none } ∧
      getQuery userId opts = getQuery userId { opts with members := none }) ∧
    (jsTruthy opts.projects = false →
      getFilterByProjectsWhereClosure opts.projects = "" ∧
      getQueryFilterList opts = getQueryFilterList { opts with projects := none } ∧
      getQuery userId opts = getQuery userId { opts with projects := none }) ∧
    (jsTruthy opts.statuses = false → jsTruthy opts.priorities = false →
      jsTruthy opts.labels = false → jsTruthy opts.members = false →
      jsTruthy opts.projects = false →
      getQueryFilterList opts = getQueryBaseFilterList opts ∧
      getQuery userId opts = getQuery userId (clearMultiFilters opts)) := by
  refine ⟨?_, ?_, ?_, ?_, ?_, ?_, ?_⟩
  · intro hmem
    simp only [getQueryFilterList] at hmem
    have := (List.mem_filter.mp hmem).2
    simp at this
  · intro h
    have hfl : getQueryFilterList opts = getQueryFilterList { opts with statuses := none } := by
      simp only [getQueryFilterList, getQueryFilterRaw, getFilterByStatusWhereClosure,
        subTasksFilterOf, archivedFilterOf, getFilterByAssignee, h,
        show jsTruthy (none : Option String) = false from rfl, Bool.false_eq_true, if_false]
    refine ⟨by simp [getFilterByStatusWhereClosure, h], hfl, ?_⟩
    have hfs : getQueryFilters opts = getQueryFilters { opts with statuses := none } := by
      simp only [getQueryFilters]
      rw [hfl]
    simp only [getQuery]
    rw [hfs]
    rfl
  · intro h
    have hfl : getQueryFilterList opts = getQueryFilterList { opts with priorities := none } := by
      simp only [getQueryFilterList, getQueryFilterRaw, getFilterByPriorityWhereClosure,
        subTasksFilterOf, archivedFilterOf, getFilterByAssignee, h,
        show jsTruthy (none : Option String) = false from rfl, Bool.false_eq_true, if_false]
    refine ⟨by simp [getFilterByPriorityWhereClosure, h], hfl, ?_⟩
    have hfs : getQueryFilters opts = getQueryFilters { opts with priorities := none } := by
      simp only [getQueryFilters]
      rw [hfl]
    simp only [getQuery]
    rw [hfs]
    rfl
  · intro h
    have hfl : getQueryFilterList opts = getQueryFilterList { opts with labels := none } := by
      simp only [getQueryFilterList, getQueryFilterRaw, getFilterByLabelsWhereClosure,
        subTasksFilterOf, archivedFilterOf, getFilterByAssignee, h,
        show jsTruthy (none : Option String) = false from rfl, Bool.false_eq_true, if_false]
    refine ⟨by simp [getFilterByLabelsWhereClosure, h], hfl, ?_⟩
    have hfs : getQueryFilters opts = getQueryFilters { opts with labels := none } := by
      simp only [getQueryFilters]
      rw [hfl]
    simp only [getQuery]
    rw [hfs]
    rfl
  · intro h
    have hfl : getQueryFilterList opts = getQueryFilterList { opts with members := none } := by
      simp only [getQueryFilterList, getQueryFilterRaw, getFilterByMembersWhereClosure,
        subTasksFilterOf, archivedFilterOf, getFilterByAssignee, h,
        show jsTruthy (none : Option String) = false from rfl, Bool.false_eq_true, if_false]
    refine ⟨by simp [getFilterByMembersWhereClosure, h], hfl, ?_⟩
    have hfs : getQueryFilters opts = getQueryFilters { opts with members := none } := by
      simp only [getQueryFilters]
      rw [hfl]
    simp only [getQuery]
    rw [hfs]
    rfl
  · intro h
    have hfl : getQueryFilterList opts = getQueryFilterList { opts with projects := none } := by
      simp only [getQueryFilterList, getQueryFilterRaw, getFilterByProjectsWhereClosure,
        subTasksFilterOf, archivedFilterOf, getFilterByAssignee, h,
        show jsTruthy (none : Option String) = false from rfl, Bool.false_eq_true, if_false]
    refine ⟨by simp [getFilterByProjectsWhereClosure, h], hfl, ?_⟩
    have hfs : getQueryFilters opts = getQueryFilters { opts with projects := none } := by
      simp only [getQueryFilters]
      rw [hfl]
    simp only [getQuery]
    rw [hfs]
    rfl
  · intro hs hp hl hm hj
    have hdrop : ∀ a b c : String,
        List.filter (fun i => !(i == "")) [a, b, c, "", "", "", "", ""] =
          List.filter (fun i => !(i == "")) [a, b, c] := by
      intro a b c
      have h : ([a, b, c, "", "", "", "", ""] : List String) =
          [a, b, c] ++ ["", "", "", "", ""] := rfl
      rw [h, List.filter_append]
      simp
    have h1 : getQueryFilterList opts = getQueryBaseFilterList opts := by
      simp only [getQueryFilterList, getQueryFilterRaw, getQueryBaseFilterList,
            getFilterByStatusWhereClosure, getFilterByPriorityWhereClosure,
            getFilterByLabelsWhereClosure, getFilterByMembersWhereClosure,
            getFilterByProjectsWhereClosure, hs, hp, hl, hm, hj,
            Bool.false_eq_true, if_false]
      exact hdrop _ _ _
    refine ⟨h1, ?_⟩
    have h2 : getQueryFilters opts = getQueryFilters (clearMultiFilters opts) := by
      simp only [getQueryFilters, getQueryFilterList, getQueryFilterRaw,
            getFilterByStatusWhereClosure, getFilterByPriorityWhereClosure,
            getFilterByLabelsWhereClosure, getFilterByMembersWhereClosure,
            getFilterByProjectsWhereClosure, subTasksFilterOf, archivedFilterOf,
            getFilterByAssignee, hs, hp, hl, hm, hj,
            clearMultiFilters_statuses, clearMultiFilters_priorities,
            clearMultiFilters_labels, clearMultiFilters_members,
            clearMultiFilters_projects, clearMultiFilters_parent_task,
            clearMultiFilters_filterBy, clearMultiFilters_isSubtasksInclude,
            clearMultiFilters_archived, show jsTruthy none = false from rfl,
            Bool.false_eq_true, if_false]
    simp only [getQuery]
    rw [h2]
    rfl

/-- Witness for C3 at a mixed request: the statuses filter is explicitly empty
while the labels filter is set, and the query equals the one with the statuses
filter removed. -/
theorem getQuery_empty_filters_impose_nothing_witness :
    getFilterByStatusWhereClosure (some "") = "" ∧
    getQueryFilterList { statuses := some "", labels := some "lab1" } =
      getQueryFilterList { labels := some "lab1" } ∧
    getQuery "u1" { statuses := some "", labels := some "lab1" } =
      getQuery "u1" { labels := some "lab1" } :=
  (getQuery_empty_filters_impose_nothing "u1"
    { statuses := some "", labels := some "lab1" }).2.1 (by decide)

/-- C5 counterexample: the claim quantifies over every request, but for a
sub-tasks request (`parent_task` set) `getQuery` replaces the archived fragment
by the tautology `1 = 1`, so with the archived option unset neither archived
fragment appears and nothing restricts the result to non-archived tasks. -/
theorem getQuery_subtask_request_has_no_archived_filter :
    "archived IS FALSE" ∉ getQueryFilterList { parent_task := some "pt1" } ∧
    "archived IS TRUE" ∉ getQueryFilterList { parent_task := some "pt1" } := by
  decide

/-- C5 amended: for every request that is not a sub-tasks request
(`parent_task` unset), the WHERE clause carries `archived IS FALSE` unless the
archived option is explicitly "true", in which case it carries
`archived IS TRUE`; sub-tasks requests carry no archived restriction at all. -/
theorem getQuery_archived_default_scoped (opts : QueryOptions)
    (hns : jsTruthy opts.parent_task = false) :
    (opts.archived = some "true" → "archived IS TRUE" ∈ getQueryFilterList opts) ∧
    (¬ opts.archived = some "true" → "archived IS FALSE" ∈ getQueryFilterList opts) := by
  constructor <;> intro h <;> simp only [getQueryFilterList] <;> apply List.mem_filter.mpr
  · refine ⟨?_, by decide⟩
    simp [getQueryFilterRaw, hns, archivedFilterOf, h]
  · have hb : (opts.archived == some "true") = false := by
      simpa [beq_iff_eq] using h
    refine ⟨?_, by decide⟩
    simp [getQueryFilterRaw, hns, archivedFilterOf, hb]

/-- Witness for C5's amended claim at the default request and at an explicit
archived-only request. -/
theorem getQuery_archived_default_scoped_witness :
    "archived IS FALSE" ∈ getQueryFilterList {} ∧
    "archived IS TRUE" ∈ getQueryFilterList { archived := some "true" } :=
  ⟨(getQuery_archived_default_scoped {} rfl).2 (by decide),
   (getQuery_archived_default_scoped { archived := some "true" } rfl).1 rfl⟩

/-- The modelled rounding helper never exceeds 100 when the count is within the
total. -/
lemma calculateTaskCompleteRatio_le_100 (c t : Nat) (h : c ≤ t) :
    calculateTaskCompleteRatio c t ≤ 100 := by
  unfold calculateTaskCompleteRatio
  rcases Nat.eq_zero_or_pos t with h0 | h0
  · simp [h0]
  · have ht : ¬ t = 0 := by omega
    rw [if_neg ht]
    have h2 : 0 < 2 * t := by omega
    have hlt : 200 * c + t < 101 * (2 * t) := by omega
    have := (Nat.div_lt_iff_lt_mul h2).mpr hlt
    omega

/-- C6: after `updateTaskProgresses` each of the three progress fields is a
whole percentage between 0 and 100 (they are natural numbers, so the lower
bound is inherent), and a group with no member tasks gets (0, 0, 0): the
division by a zero total never propagates. -/
theorem updateTaskProgresses_ratios_bounded (g : TaskListGroup) :
    (updateTaskProgresses g).todo_progress ≤ 100 ∧
    (updateTaskProgresses g).doing_progress ≤ 100 ∧
    (updateTaskProgresses g).done_progress ≤ 100 ∧
    (g.tasks = [] →
      (updateTaskProgresses g).todo_progress = 0 ∧
      (updateTaskProgresses g).doing_progress = 0 ∧
      (updateTaskProgresses g).done_progress = 0) := by
  refine ⟨?_, ?_, ?_, ?_⟩
  · exact calculateTaskCompleteRatio_le_100 _ _ (List.length_filter_le _ _)
  · exact calculateTaskCompleteRatio_le_100 _ _ (List.length_filter_le _ _)
  · exact calculateTaskCompleteRatio_le_100 _ _ (List.length_filter_le _ _)
  · intro hempty
    simp [updateTaskProgresses, hempty, calculateTaskCompleteRatio]

/-- Witness for C6 at a concrete empty group and at a concrete two-task group. -/
theorem updateTaskProgresses_ratios_bounded_witness :
    ((updateTaskProgresses
        (TaskListGroup.mk "g" none "#fff" "#000" none none 7 7 7 [])).done_progress = 0) ∧
    ((updateTaskProgresses
        (TaskListGroup.mk "g" none "#fff" "#000" none none 7 7 7 [])).done_progress ≤ 100) := by
  constructor
  · exact ((updateTaskProgresses_ratios_bounded
      (TaskListGroup.mk "g" none "#fff" "#000" none none 7 7 7 [])).2.2.2 rfl).2.2
  · exact (updateTaskProgresses_ratios_bounded
      (TaskListGroup.mk "g" none "#fff" "#000" none none 7 7 7 [])).2.2.1

/-! ### Grouping-engine lemmas -/

lemma keysOf_pushTask (m : GroupMap) (key : String) (t : Task) :
    keysOf (pushTask m key t) = keysOf m := by
  induction m with
  | nil => rfl
  | cons kg rest ih =>
    simp only [pushTask, keysOf, List.map_cons] at ih ⊢
    by_cases h : (kg.1 == key) = true
    · rw [if_pos h]
      exact congrArg (List.cons kg.1) ih
    · rw [if_neg h]
      exact congrArg (List.cons kg.1) ih

lemma mapCountP_append (p : Task → Bool) (m1 m2 : GroupMap) :
    mapCountP p (m1 ++ m2) = mapCountP p m1 + mapCountP p m2 := by
  simp [mapCountP]

lemma mapCountP_pushTask_not_mem (p : Task → Bool) (m : GroupMap) (key : String) (t : Task)
    (hk : key ∉ keysOf m) : mapCountP p (pushTask m key t) = mapCountP p m := by
  induction m with
  | nil => rfl
  | cons kg rest ih =>
    simp only [keysOf, List.map_cons, List.mem_cons, not_or] at hk
    have hne : (kg.1 == key) = false := by
      simpa [beq_iff_eq] using fun h => hk.1 h.symm
    simp only [pushTask, mapCountP, List.map_cons, List.sum_cons, hne] at ih ⊢
    rw [if_neg (by simp [hne])]
    have := ih (by simpa [keysOf] using hk.2)
    simp only [pushTask, mapCountP] at this
    omega

lemma mapCountP_pushTask_mem (p : Task → Bool) (m : GroupMap) (key : String) (t : Task)
    (hnd : (keysOf m).Nodup) (hk : key ∈ keysOf m) :
    mapCountP p (pushTask m key t) = mapCountP p m + (if p t then 1 else 0) := by
  induction m with
  | nil => cases hk
  | cons kg rest ih =>
    simp only [keysOf, List.map_cons, List.nodup_cons] at hnd
    rcases List.mem_cons.mp hk with heq | hmem
    · have heq' : key = kg.1 := heq
      have hb : (kg.1 == key) = true := by simp [beq_iff_eq, heq']
      have hrest : key ∉ keysOf rest := by
        rw [heq']; exact hnd.1
      simp only [pushTask, mapCountP, List.map_cons, List.sum_cons]
      rw [if_pos (by simp [hb])]
      have hnop := mapCountP_pushTask_not_mem p rest key t hrest
      simp only [pushTask, mapCountP] at hnop
      simp only [List.countP_append]
      have : List.countP p [t] = if p t then 1 else 0 := by
        simp [List.countP_cons]
      omega
    · by_cases hb : (kg.1 == key) = true
      · have hk1 : kg.1 = key := by simpa [beq_iff_eq] using hb
        have : key ∉ keysOf rest := by
          have h' := hnd.1
          rw [hk1] at h'
          exact h'
        exact absurd hmem this
      · simp only [pushTask, mapCountP, List.map_cons, List.sum_cons]
        rw [if_neg (by simp [hb])]
        have := ih hnd.2 (by simpa [keysOf] using hmem)
        simp only [pushTask, mapCountP] at this
        omega

lemma mapCountP_of_empty_groups (p : Task → Bool) (m : GroupMap)
    (hempty : ∀ kg ∈ m, kg.2.tasks = []) : mapCountP p m = 0 := by
  induction m with
  | nil => rfl
  | cons kg rest ih =>
    simp only [mapCountP, List.map_cons, List.sum_cons]
    rw [hempty kg (List.mem_cons_self kg rest)]
    have := ih (fun x hx => hempty x (List.mem_cons_of_mem kg hx))
    simp only [mapCountP] at this
    simp [this]

lemma totalCount_eq_mapCountP (m : GroupMap) :
    totalCount m = mapCountP (fun _ => true) m := by
  induction m with
  | nil => rfl
  | cons kg rest ih =>
    simp only [totalCount, mapCountP, List.map_cons, List.sum_cons] at ih ⊢
    rw [ih, congrFun List.countP_true kg.2.tasks]

lemma keysOf_updateMapByGroupAux (groupBy : String) :
    ∀ (ts : List Task) (i : Nat) (m : GroupMap) (um : List Task),
      keysOf (updateMapByGroupAux groupBy ts i m um).1 = keysOf m := by
  intro ts
  induction ts with
  | nil => intro i m um; rfl
  | cons t ts ih =>
    intro i m um
    simp only [updateMapByGroupAux, updateTaskViewModel]
    by_cases h1 : (groupBy == GroupBy.STATUS) = true
    · simp only [h1, if_true]; rw [ih, keysOf_pushTask]
    · simp only [h1, Bool.false_eq_true, if_false]
      by_cases h2 : (groupBy == GroupBy.PRIORITY) = true
      · simp only [h2, if_true]; rw [ih, keysOf_pushTask]
      · simp only [h2, Bool.false_eq_true, if_false]
        by_cases h3 : (groupBy == GroupBy.PHASE && jsTruthy t.phase_id) = true
        · simp only [h3, if_true]; rw [ih, keysOf_pushTask]
        · simp only [h3, Bool.false_eq_true, if_false]; exact ih _ _ _

lemma stepKeeps_status (groupBy : String) (keys : List String) (t : Task)
    (h1 : (groupBy == GroupBy.STATUS) = true) (h : stepKeeps groupBy keys t) :
    t.status ∈ keys := by
  simpa [stepKeeps, h1] using h

lemma stepKeeps_priority (groupBy : String) (keys : List String) (t : Task)
    (h1 : (groupBy == GroupBy.STATUS) = false) (h2 : (groupBy == GroupBy.PRIORITY) = true)
    (h : stepKeeps groupBy keys t) : t.priority ∈ keys := by
  simpa [stepKeeps, h1, h2] using h

lemma stepKeeps_phase (groupBy : String) (keys : List String) (t : Task)
    (h1 : (groupBy == GroupBy.STATUS) = false) (h2 : (groupBy == GroupBy.PRIORITY) = false)
    (h3 : (groupBy == GroupBy.PHASE && jsTruthy t.phase_id) = true)
    (h : stepKeeps groupBy keys t) : t.phase_id.getD "" ∈ keys := by
  simpa [stepKeeps, h1, h2, h3] using h

lemma stepKeeps_index (groupBy : String) (keys : List String) (t : Task) (i : Nat)
    (h : stepKeeps groupBy keys t) : stepKeeps groupBy keys { t with index := i } := by
  simpa [stepKeeps] using h

lemma updateMapByGroupAux_invariant (groupBy : String) (p : Task → Bool) :
    ∀ (ts : List Task) (i : Nat) (m : GroupMap) (um : List Task),
      (keysOf m).Nodup →
      (∀ t ∈ ts, stepKeeps groupBy (keysOf m) t) →
      mapCountP p (updateMapByGroupAux groupBy ts i m um).1 +
          ((updateMapByGroupAux groupBy ts i m um).2.countP p) =
        mapCountP p m + um.countP p + (decorate ts i).countP p := by
  intro ts
  induction ts with
  | nil =>
    intro i m um _ _
    simp [updateMapByGroupAux, decorate]
  | cons t ts ih =>
    intro i m um hnd hres
    have hhead := hres t (List.mem_cons_self t ts)
    have htail : ∀ x ∈ ts, stepKeeps groupBy (keysOf m) x :=
      fun x hx => hres x (List.mem_cons_of_mem t hx)
    simp only [updateMapByGroupAux, updateTaskViewModel, decorate, List.countP_cons]
    by_cases h1 : (groupBy == GroupBy.STATUS) = true
    · rw [if_pos (by simp [h1])]
      have hk : ({ t with index := i } : Task).status ∈ keysOf m :=
        stepKeeps_status groupBy (keysOf m) _ h1 (stepKeeps_index groupBy (keysOf m) t i hhead)
      have hkeys := keysOf_pushTask m ({ t with index := i } : Task).status { t with index := i }
      have := ih (i + 1) (pushTask m ({ t with index := i } : Task).status { t with index := i })
        um (by rw [hkeys]; exact hnd) (by simp only [hkeys]; exact htail)
      rw [this, mapCountP_pushTask_mem p m _ _ hnd hk]
      omega
    · rw [if_neg (by simp [h1])]
      by_cases h2 : (groupBy == GroupBy.PRIORITY) = true
      · rw [if_pos (by simp [h2])]
        have hk : ({ t with index := i } : Task).priority ∈ keysOf m :=
          stepKeeps_priority groupBy (keysOf m) _ (by simpa using h1) h2
            (stepKeeps_index groupBy (keysOf m) t i hhead)
        have hkeys := keysOf_pushTask m ({ t with index := i } : Task).priority { t with index := i }
        have := ih (i + 1) (pushTask m ({ t with index := i } : Task).priority { t with index := i })
          um (by rw [hkeys]; exact hnd) (by simp only [hkeys]; exact htail)
        rw [this, mapCountP_pushTask_mem p m _ _ hnd hk]
        omega
      · rw [if_neg (by simp [h2])]
        by_cases h3 : (groupBy == GroupBy.PHASE && jsTruthy ({ t with index := i } : Task).phase_id) = true
        · rw [if_pos (by simp [h3])]
          have hk : ({ t with index := i } : Task).phase_id.getD "" ∈ keysOf m :=
            stepKeeps_phase groupBy (keysOf m) _ (by simpa using h1) (by simpa using h2) h3
              (stepKeeps_index groupBy (keysOf m) t i hhead)
          have hkeys := keysOf_pushTask m (({ t with index := i } : Task).phase_id.getD "") { t with index := i }
          have := ih (i + 1)
            (pushTask m (({ t with index := i } : Task).phase_id.getD "") { t with index := i })
            um (by rw [hkeys]; exact hnd) (by simp only [hkeys]; exact htail)
          rw [this, mapCountP_pushTask_mem p m _ _ hnd hk]
          omega
        · rw [if_neg (by simp [h3])]
          have := ih (i + 1) m (um ++ [{ t with index := i }]) hnd htail
          rw [this, List.countP_append]
          have : List.countP p [{ t with index := i }] = if p { t with index := i } then 1 else 0 := by
            simp [List.countP_cons]
          omega

lemma updateMapByGroupAux_unmapped_sources (groupBy : String) :
    ∀ (ts : List Task) (i : Nat) (m : GroupMap) (um : List Task) (x : Task),
      x ∈ (updateMapByGroupAux groupBy ts i m um).2 →
      x ∈ um ∨ ∃ t ∈ ts, elseBranchTaken groupBy t = true := by
  intro ts
  induction ts with
  | nil =>
    intro i m um x hx
    exact Or.inl hx
  | cons t ts ih =>
    intro i m um x hx
    simp only [updateMapByGroupAux, updateTaskViewModel] at hx
    by_cases h1 : (groupBy == GroupBy.STATUS) = true
    · rw [if_pos (by simp [h1])] at hx
      rcases ih _ _ _ _ hx with h | ⟨t', ht', he⟩
      · exact Or.inl h
      · exact Or.inr ⟨t', List.mem_cons_of_mem t ht', he⟩
    · rw [if_neg (by simp [h1])] at hx
      by_cases h2 : (groupBy == GroupBy.PRIORITY) = true
      · rw [if_pos (by simp [h2])] at hx
        rcases ih _ _ _ _ hx with h | ⟨t', ht', he⟩
        · exact Or.inl h
        · exact Or.inr ⟨t', List.mem_cons_of_mem t ht', he⟩
      · rw [if_neg (by simp [h2])] at hx
        by_cases h3 : (groupBy == GroupBy.PHASE && jsTruthy ({ t with index := i } : Task).phase_id) = true
        · rw [if_pos (by simp [h3])] at hx
          rcases ih _ _ _ _ hx with h | ⟨t', ht', he⟩
          · exact Or.inl h
          · exact Or.inr ⟨t', List.mem_cons_of_mem t ht', he⟩
        · rw [if_neg (by simp [h3])] at hx
          rcases ih _ _ _ _ hx with h | ⟨t', ht', he⟩
          · rcases List.mem_append.mp h with h' | h'
            · exact Or.inl h'
            · refine Or.inr ⟨t, List.mem_cons_self t ts, ?_⟩
              simp only [elseBranchTaken]
              simp only [Task.phase_id] at h3
              simp [h1, h2, h3]
          · exact Or.inr ⟨t', List.mem_cons_of_mem t ht', he⟩

lemma elseBranchTaken_not_resolves (groupBy : String) (m : GroupMap) (t : Task)
    (h : elseBranchTaken groupBy t = true) : resolvesToShell groupBy m t = false := by
  simp only [elseBranchTaken, Bool.and_eq_true, Bool.not_eq_true'] at h
  obtain ⟨⟨h1, h2⟩, h3⟩ := h
  by_cases hp : (groupBy == GroupBy.PHASE) = true
  · have : jsTruthy t.phase_id = false := by
      rcases Bool.and_eq_false_iff.mp h3 with h' | h'
      · rw [hp] at h'; cases h'
      · exact h'
    simp [resolvesToShell, h1, h2, hp, this]
  · simp [resolvesToShell, h1, h2, hp]

lemma not_mem_keysOf_any_eq_false (m : GroupMap) (key : String)
    (hk : key ∉ keysOf m) : (m.any (fun kg => kg.1 == key)) = false := by
  rw [Bool.eq_false_iff]
  intro hc
  rcases List.any_eq_true.mp hc with ⟨kg, hkg, hb⟩
  exact hk (by
    have : kg.1 = key := by simpa [beq_iff_eq] using hb
    rw [← this]
    exact List.mem_map_of_mem (·.1) hkg)

lemma setKey_not_mem (m : GroupMap) (key : String) (g : TaskListGroup)
    (hk : key ∉ keysOf m) : setKey m key g = m ++ [(key, g)] := by
  simp [setKey, not_mem_keysOf_any_eq_false m key hk]

lemma lookupG_not_mem (m : GroupMap) (key : String) (hk : key ∉ keysOf m) :
    lookupG m key = none := by
  induction m with
  | nil => rfl
  | cons kg rest ih =>
    simp only [keysOf, List.map_cons, List.mem_cons, not_or] at hk
    have hne : (kg.1 == key) = false := by
      simpa [beq_iff_eq] using fun h => hk.1 h.symm
    simp only [lookupG, List.find?_cons, hne]
    exact ih (by simpa [keysOf] using hk.2)

lemma lookupG_append_self (m : GroupMap) (key : String) (g : TaskListGroup)
    (hk : key ∉ keysOf m) : lookupG (m ++ [(key, g)]) key = some g := by
  induction m with
  | nil => simp [lookupG]
  | cons kg rest ih =>
    simp only [keysOf, List.map_cons, List.mem_cons, not_or] at hk
    have hne : (kg.1 == key) = false := by
      simpa [beq_iff_eq] using fun h => hk.1 h.symm
    simp only [lookupG, List.cons_append, List.find?_cons, hne]
    exact ih (by simpa [keysOf] using hk.2)

lemma decorate_length : ∀ (ts : List Task) (i : Nat), (decorate ts i).length = ts.length := by
  intro ts
  induction ts with
  | nil => intro i; rfl
  | cons t ts ih => intro i; simp [decorate, ih]

lemma decorate_countP_lt : ∀ (ts : List Task) (i j : Nat), j < i →
    (decorate ts i).countP (fun t => t.index == j) = 0 := by
  intro ts
  induction ts with
  | nil => intro i j _; rfl
  | cons t ts ih =>
    intro i j hj
    simp only [decorate, List.countP_cons]
    rw [ih (i + 1) j (by omega)]
    have : (({ t with index := i } : Task).index == j) = false := by
      simp only [Task.index]
      simp [Nat.ne_of_gt hj]
    simp [this]

lemma decorate_countP_one : ∀ (ts : List Task) (i j : Nat), i ≤ j → j < i + ts.length →
    (decorate ts i).countP (fun t => t.index == j) = 1 := by
  intro ts
  induction ts with
  | nil => intro i j h1 h2; simp at h2; omega
  | cons t ts ih =>
    intro i j h1 h2
    simp only [decorate, List.countP_cons]
    by_cases hij : j = i
    · subst hij
      rw [decorate_countP_lt ts (j + 1) j (by omega)]
      simp
    · rw [ih (i + 1) j (by omega) (by simp at h2; omega)]
      have hne : ¬ i = j := fun h => hij h.symm
      have : (({ t with index := i } : Task).index == j) = false := by
        simpa using hne
      simp [this]

/-- C1 counterexample: the claim fails as stated — grouping by STATUS, a task
whose status has no corresponding shell is dropped by the optional chaining
(`map[task.status]?.tasks.push`), not routed to the unmapped group, so the sum
of the group task counts is 0 while one task was supplied. -/
theorem updateMapByGroup_claim_fails_on_unmatched_key :
    ¬ totalCount (updateMapByGroup [Task.mk "s1" "p1" none none 0] GroupBy.STATUS
        [("s2", TaskListGroup.mk "Group 2" none "#111111" "#222222" none none 0 0 0 [])]) =
      ([Task.mk "s1" "p1" none none 0] : List Task).length := by
  decide

/-- C1 amended: provided every input task's group key resolves to a supplied
shell — or, when grouping by phase, the task may instead lack a phase id and go
to the unmapped group — the sum of the task counts over all groups of the
resulting map (including the synthesized unmapped group when present) equals the
number of input tasks, and each input task (identified by its unique display
index) appears in exactly one group; tasks whose key has no shell are otherwise
dropped, as the counterexample shows. -/
theorem updateMapByGroup_partition (tasks : List Task) (groupBy : String) (map : GroupMap)
    (hdim : groupBy = GroupBy.STATUS ∨ groupBy = GroupBy.PRIORITY ∨ groupBy = GroupBy.PHASE)
    (hnd : (keysOf map).Nodup)
    (hUN : UNMAPPED ∉ keysOf map)
    (hempty : ∀ kg ∈ map, kg.2.tasks = [])
    (hres : ∀ t ∈ tasks, stepKeeps groupBy (keysOf map) t) :
    totalCount (updateMapByGroup tasks groupBy map) = tasks.length ∧
    ∀ i, i < tasks.length →
      mapCountP (fun t => t.index == i) (updateMapByGroup tasks groupBy map) = 1 := by
  have master : ∀ p : Task → Bool,
      mapCountP p (updateMapByGroup tasks groupBy map) = (decorate tasks 0).countP p := by
    intro p
    have hinv := updateMapByGroupAux_invariant groupBy p tasks 0 map [] hnd hres
    have hkeys := keysOf_updateMapByGroupAux groupBy tasks 0 map []
    rw [mapCountP_of_empty_groups p map hempty] at hinv
    simp only [List.countP_nil] at hinv
    simp only [updateMapByGroup]
    by_cases hcase : (updateMapByGroupAux groupBy tasks 0 map []).2.isEmpty
    · have h0 : (updateMapByGroupAux groupBy tasks 0 map []).2 = [] :=
        List.isEmpty_iff.mp hcase
      rw [if_pos hcase]
      rw [h0, List.countP_nil] at hinv
      omega
    · rw [if_neg hcase]
      have hUNr : UNMAPPED ∉ keysOf (updateMapByGroupAux groupBy tasks 0 map []).1 := by
        rw [hkeys]; exact hUN
      rw [setKey_not_mem _ _ _ hUNr, mapCountP_append]
      have hsing : mapCountP p
          [(UNMAPPED, unmappedGroup (updateMapByGroupAux groupBy tasks 0 map []).2)] =
          (updateMapByGroupAux groupBy tasks 0 map []).2.countP p := by
        simp [mapCountP, unmappedGroup]
      rw [hsing]
      omega
  constructor
  · rw [totalCount_eq_mapCountP, master, congrFun List.countP_true (decorate tasks 0),
        decorate_length]
  · intro i hi
    rw [master]
    exact decorate_countP_one tasks 0 i (Nat.zero_le i) (by simpa using hi)

/-- Witness for C1's amended claim: two tasks grouped by STATUS into two
matching shells. -/
theorem updateMapByGroup_partition_witness :
    totalCount (updateMapByGroup
      [Task.mk "s1" "p" none none 0, Task.mk "s2" "p" none none 0] GroupBy.STATUS
      [("s1", TaskListGroup.mk "Todo" none "#111111" "#222222" none none 0 0 0 []),
       ("s2", TaskListGroup.mk "Done" none "#333333" "#444444" none none 0 0 0 [])]) = 2 :=
  (updateMapByGroup_partition
    [Task.mk "s1" "p" none none 0, Task.mk "s2" "p" none none 0] GroupBy.STATUS
    [("s1", TaskListGroup.mk "Todo" none "#111111" "#222222" none none 0 0 0 []),
     ("s2", TaskListGroup.mk "Done" none "#333333" "#444444" none none 0 0 0 [])]
    (Or.inl rfl) (by decide) (by decide) (by decide) (by decide)).1

/-- C8: with the sentinel key absent from the supplied shells, the unmapped
group appears in the result only when some task fails to resolve to a supplied
shell; when it appears it is keyed by the fixed `UNMAPPED` sentinel and carries
the fixed fallback color `#fbc84c69` and no category; and when the walk routes
no task to it the result has no entry at the sentinel key at all — it is never
pre-seeded. -/
theorem updateMapByGroup_unmapped_lazy (tasks : List Task) (groupBy : String) (map : GroupMap)
    (hUN : UNMAPPED ∉ keysOf map) :
    (∀ g, lookupG (updateMapByGroup tasks groupBy map) UNMAPPED = some g →
        (∃ t ∈ tasks, resolvesToShell groupBy map t = false) ∧
        g.name = UNMAPPED ∧ g.category_id = none ∧ g.color_code = "#fbc84c69") ∧
    ((updateMapByGroupAux groupBy tasks 0 map []).2 = [] →
      lookupG (updateMapByGroup tasks groupBy map) UNMAPPED = none) := by
  have hkeys := keysOf_updateMapByGroupAux groupBy tasks 0 map []
  have hUNr : UNMAPPED ∉ keysOf (updateMapByGroupAux groupBy tasks 0 map []).1 := by
    rw [hkeys]; exact hUN
  constructor
  · intro g hg
    simp only [updateMapByGroup] at hg
    by_cases hcase : (updateMapByGroupAux groupBy tasks 0 map []).2.isEmpty
    · rw [if_pos hcase, lookupG_not_mem _ _ hUNr] at hg
      cases hg
    · rw [if_neg hcase, setKey_not_mem _ _ _ hUNr, lookupG_append_self _ _ _ hUNr] at hg
      have hgeq : g = unmappedGroup (updateMapByGroupAux groupBy tasks 0 map []).2 :=
        (Option.some.inj hg).symm
      have hne : (updateMapByGroupAux groupBy tasks 0 map []).2 ≠ [] := by
        intro h0
        rw [h0] at hcase
        exact hcase rfl
      obtain ⟨x, hx⟩ := List.exists_mem_of_ne_nil _ hne
      rcases updateMapByGroupAux_unmapped_sources groupBy tasks 0 map [] x hx with h | ⟨t, ht, he⟩
      · cases h
      · exact ⟨⟨t, ht, elseBranchTaken_not_resolves groupBy map t he⟩,
          by rw [hgeq]; rfl, by rw [hgeq]; rfl, by rw [hgeq]; rfl⟩
  · intro h0
    simp only [updateMapByGroup]
    have hc : (updateMapByGroupAux groupBy tasks 0 map []).2.isEmpty = true := by
      rw [h0]; rfl
    rw [if_pos hc]
    exact lookupG_not_mem _ _ hUNr

/-- Witness for C8: grouping by phase with one shell, a task with no phase id
lands in the materialized unmapped group. -/
theorem updateMapByGroup_unmapped_lazy_witness :
    (∃ t ∈ [Task.mk "s" "p" none none 5],
        resolvesToShell GroupBy.PHASE
          [("ph1", TaskListGroup.mk "Phase 1" none "#333333" "#444444" none none 0 0 0 [])]
          t = false) ∧
    (unmappedGroup [Task.mk "s" "p" none none 0]).name = UNMAPPED ∧
    (unmappedGroup [Task.mk "s" "p" none none 0]).category_id = none ∧
    (unmappedGroup [Task.mk "s" "p" none none 0]).color_code = "#fbc84c69" :=
  (updateMapByGroup_unmapped_lazy [Task.mk "s" "p" none none 5] GroupBy.PHASE
    [("ph1", TaskListGroup.mk "Phase 1" none "#333333" "#444444" none none 0 0 0 [])]
    (by decide)).1
    (unmappedGroup [Task.mk "s" "p" none none 0]) (by decide)

/-! ### Dependency-gate lemmas -/

lemma find?_gateTask_of_unique (l : List GateTaskRow) (t : GateTaskRow)
    (hu : ∀ t1 ∈ l, ∀ t2 ∈ l, t1.id = t2.id → t1 = t2) (ht : t ∈ l) :
    l.find? (fun x => x.id == t.id) = some t := by
  induction l with
  | nil => cases ht
  | cons a rest ih =>
    rcases List.mem_cons.mp ht with rfl | hmem
    · simp [List.find?_cons]
    · by_cases hb : (a.id == t.id) = true
      · have : a = t := hu a (List.mem_cons_self a rest) t ht (by simpa [beq_iff_eq] using hb)
        subst this
        simp [List.find?_cons]
      · rw [List.find?_cons_of_neg _ (by simpa using hb)]
        exact ih (fun t1 h1 t2 h2 => hu t1 (List.mem_cons_of_mem a h1) t2 (List.mem_cons_of_mem a h2)) hmem

lemma gateCond1_false (db : GateDb) (taskId nextStatusId : String)
    (tsr : StatusRow) (ct : CategoryRow)
    (hSid : ∀ s1 ∈ db.statuses, ∀ s2 ∈ db.statuses, s1.id = s2.id → s1 = s2)
    (hCid : ∀ c1 ∈ db.categories, ∀ c2 ∈ db.categories, c1.id = c2.id → c1 = c2)
    (hTs : tsr ∈ db.statuses) (hTsid : tsr.id = nextStatusId)
    (hCt : ct ∈ db.categories) (hCtid : ct.id = tsr.category_id)
    (hdone : ct.is_done = true) :
    gateCond1 db taskId nextStatusId = false := by
  rw [Bool.eq_false_iff]
  intro hc
  rcases List.any_eq_true.mp hc with ⟨ts, hts, hb⟩
  simp only [Bool.and_eq_true, beq_iff_eq] at hb
  obtain ⟨⟨hid, _⟩, hcats⟩ := hb
  have hts_eq : ts = tsr := hSid ts hts tsr hTs (by rw [hid, hTsid])
  subst hts_eq
  rcases List.any_eq_true.mp hcats with ⟨c, hc', hcb⟩
  simp only [Bool.and_eq_true, beq_iff_eq, Bool.not_eq_true'] at hcb
  have hceq : c = ct := hCid c hc' ct hCt (by rw [hcb.1, hCtid])
  rw [hceq, hdone] at hcb
  exact Bool.false_ne_true hcb.2.symm

/-- C2: with unique ids, the target status belonging to the task's project, and
every direct dependency resolving to an existing task whose status is a status
of its own project with an existing category, `checkForCompletedDependencies`
returns true whenever the target status's category is not done; when the target
is a done-category status it returns false exactly when some direct dependency's
status category is not done, and true when every direct dependency (possibly
none) is done. -/
theorem checkForCompletedDependencies_gate (db : GateDb) (taskId nextStatusId : String)
    (tk : GateTaskRow) (tsr : StatusRow) (ct : CategoryRow)
    (hSid : ∀ s1 ∈ db.statuses, ∀ s2 ∈ db.statuses, s1.id = s2.id → s1 = s2)
    (hCid : ∀ c1 ∈ db.categories, ∀ c2 ∈ db.categories, c1.id = c2.id → c1 = c2)
    (hTid : ∀ t1 ∈ db.tasks, ∀ t2 ∈ db.tasks, t1.id = t2.id → t1 = t2)
    (hTk : tk ∈ db.tasks) (hTkid : tk.id = taskId)
    (hTs : tsr ∈ db.statuses) (hTsid : tsr.id = nextStatusId)
    (hTsproj : tsr.project_id = tk.project_id)
    (hCt : ct ∈ db.categories) (hCtid : ct.id = tsr.category_id) :
    (ct.is_done = false → checkForCompletedDependencies db taskId nextStatusId = true) ∧
    (ct.is_done = true →
      ((∃ td ∈ db.deps, td.task_id = taskId ∧
          ∃ rt ∈ db.tasks, rt.id = td.related_task_id ∧
            ∃ s ∈ db.statuses, s.id = rt.status_id ∧ s.project_id = rt.project_id ∧
              ∃ c ∈ db.categories, c.id = s.category_id ∧ c.is_done = false) →
        checkForCompletedDependencies db taskId nextStatusId = false) ∧
      ((∀ td ∈ db.deps, td.task_id = taskId →
          ∃ rt ∈ db.tasks, rt.id = td.related_task_id ∧
            ∃ s ∈ db.statuses, s.id = rt.status_id ∧ s.project_id = rt.project_id ∧
              ∃ c ∈ db.categories, c.id = s.category_id ∧ c.is_done = true) →
        checkForCompletedDependencies db taskId nextStatusId = true)) := by
  have hfind : db.tasks.find? (fun t => t.id == taskId) = some tk := by
    rw [← hTkid]
    exact find?_gateTask_of_unique db.tasks tk hTid hTk
  constructor
  · -- target not done: the first CASE arm fires
    intro hnotdone
    have hc1 : gateCond1 db taskId nextStatusId = true := by
      rw [gateCond1, List.any_eq_true]
      refine ⟨tsr, hTs, ?_⟩
      simp only [Bool.and_eq_true, beq_iff_eq]
      refine ⟨⟨hTsid, ?_⟩, ?_⟩
      · rw [hfind]
        simp [hTsproj]
      · rw [List.any_eq_true]
        refine ⟨ct, hCt, ?_⟩
        simp [beq_iff_eq, hCtid, hnotdone]
    simp [checkForCompletedDependencies, hc1]
  · intro hdone
    have hc1 : gateCond1 db taskId nextStatusId = false :=
      gateCond1_false db taskId nextStatusId tsr ct hSid hCid hTs hTsid hCt hCtid hdone
    constructor
    · -- a not-done dependency: the second CASE arm fires
      rintro ⟨td, htd, htdid, rt, hrt, hrtid, s, hs, hsid, hsproj, c, hc, hcid, hcnotdone⟩
      have hc2 : gateCond2 db taskId = true := by
        rw [gateCond2, List.any_eq_true]
        refine ⟨td, htd, ?_⟩
        have hfindrt : db.tasks.find? (fun t => t.id == td.related_task_id) = some rt := by
          rw [← hrtid]
          exact find?_gateTask_of_unique db.tasks rt hTid hrt
        simp only [Bool.and_eq_true, beq_iff_eq, hfindrt]
        refine ⟨htdid, ?_⟩
        rw [Bool.not_eq_true', Bool.eq_false_iff]
        intro hany
        rcases List.any_eq_true.mp hany with ⟨ts, hts, hb⟩
        simp only [Bool.and_eq_true, beq_iff_eq] at hb
        obtain ⟨⟨hproj', hcats⟩, hid'⟩ := hb
        have hts_eq : ts = s := hSid ts hts s hs (by rw [hid', hsid])
        subst hts_eq
        rcases List.any_eq_true.mp hcats with ⟨c', hc', hcb⟩
        simp only [Bool.and_eq_true, beq_iff_eq] at hcb
        have hceq : c' = c := hCid c' hc' c hc (by rw [hcb.1, hcid])
        rw [hceq, hcnotdone] at hcb
        exact Bool.false_ne_true hcb.2
      simp [checkForCompletedDependencies, hc1, hc2]
    · -- all dependencies done: no CASE arm fires, the gate allows
      intro hall
      have hc2 : gateCond2 db taskId = false := by
        rw [Bool.eq_false_iff]
        intro hany
        rcases List.any_eq_true.mp hany with ⟨td, htd, hb⟩
        simp only [Bool.and_eq_true, beq_iff_eq] at hb
        obtain ⟨htdid, hrest⟩ := hb
        obtain ⟨rt, hrt, hrtid, s, hs, hsid, hsproj, c, hc, hcid, hcdone⟩ := hall td htd htdid
        have hfindrt : db.tasks.find? (fun t => t.id == td.related_task_id) = some rt := by
          rw [← hrtid]
          exact find?_gateTask_of_unique db.tasks rt hTid hrt
        rw [hfindrt] at hrest
        rw [Bool.not_eq_true', Bool.eq_false_iff] at hrest
        apply hrest
        rw [List.any_eq_true]
        refine ⟨s, hs, ?_⟩
        simp only [Bool.and_eq_true, beq_iff_eq]
        refine ⟨⟨hsproj, ?_⟩, hsid⟩
        rw [List.any_eq_true]
        refine ⟨c, hc, ?_⟩
        simp [beq_iff_eq, hcid, hcdone]
      simp [checkForCompletedDependencies, hc1, hc2]

/-- Witness for C2: a store with a done and a todo status, a task with one
dependency whose status is done — the transition into the done status is
allowed. -/
theorem checkForCompletedDependencies_gate_witness :
    checkForCompletedDependencies
      (GateDb.mk
        [StatusRow.mk "st-done" "p1" "cat-done", StatusRow.mk "st-todo" "p1" "cat-todo"]
        [CategoryRow.mk "cat-done" true, CategoryRow.mk "cat-todo" false]
        [GateTaskRow.mk "t1" "p1" "st-todo", GateTaskRow.mk "t2" "p1" "st-done"]
        [DependencyRow.mk "t1" "t2"])
      "t1" "st-done" = true :=
  ((checkForCompletedDependencies_gate
      (GateDb.mk
        [StatusRow.mk "st-done" "p1" "cat-done", StatusRow.mk "st-todo" "p1" "cat-todo"]
        [CategoryRow.mk "cat-done" true, CategoryRow.mk "cat-todo" false]
        [GateTaskRow.mk "t1" "p1" "st-todo", GateTaskRow.mk "t2" "p1" "st-done"]
        [DependencyRow.mk "t1" "t2"])
      "t1" "st-done"
      (GateTaskRow.mk "t1" "p1" "st-todo") (StatusRow.mk "st-done" "p1" "cat-done")
      (CategoryRow.mk "cat-done" true)
      (by decide) (by decide) (by decide) (by decide) rfl (by decide) rfl rfl
      (by decide) rfl).2 rfl).2 (by decide)

end Worklenz
